import Mathlib

/-!
Verification of the vUnit.js viewport-unit polyfill (src/index.js).

The source is a single browser module.  We give a shallow embedding:

* JS numbers are modelled as `ℚ` (all arithmetic the claims touch is exact:
  divisions by 100 and products with integer ranges);
* the DOM head is a list of style nodes `{id, content}`;
* the side effects of one poll cycle (publishing a stylesheet, invoking the
  `onResize` callback, throwing) are reified as an `Effect` list;
* JS option values, whose truthiness drives the `||` defaulting in the
  constructor, are modelled by an explicit `JSVal` type.
-/

namespace VUnit

/-- Viewport dimensions, mirroring `vunit.viewportSize = {height, width}`. -/
structure ViewportSize where
  height : ℚ
  width : ℚ
deriving DecidableEq, Repr

/-- One entry of the `CSSMap` option: `{property, reference}`.  The
`reference` is an arbitrary JS value in the source; only the strings
`vw`, `vh`, `vmin`, `vmax` are recognised, so we model it as an optional
string (`none` = property absent / undefined). -/
structure RuleMapEntry where
  property : String
  reference : Option String
deriving DecidableEq, Repr

/-- The `CSSMap` object: selectors (in `Object.keys` insertion order)
paired with their entries.  JS object keys are unique. -/
abbrev RuleMap := List (String × RuleMapEntry)

/-- First-occurrence replacement on character lists, mirroring JS
`String.prototype.replace(searchString, replacement)`. -/
def replaceFirstChars (pat rep : List Char) : List Char → List Char
  | [] => []
  | c :: cs =>
    if pat.isPrefixOf (c :: cs) then rep ++ (c :: cs).drop pat.length
    else c :: replaceFirstChars pat rep cs

/-- JS `s.replace(pat, rep)`: replaces the first occurrence of `pat`. -/
def jsReplace (s pat rep : String) : String :=
  ⟨replaceFirstChars pat.data rep.data s.data⟩

/-- JS default number-to-string conversion, as used by the template
substitution of `_VALUE_`.  On the integral values the claims evaluate it
agrees with JS; non-integral rationals are printed as fractions (the
claims never inspect those digits). -/
def jsNumToString (q : ℚ) : String :=
  if q.den = 1 then toString q.num else toString q

/-- The literal `CSSRuleTemplate` of `createCSSRules`:
`'_SELECTOR__RANGE_{_PROPERTY_:_VALUE_px}\n'`. -/
def CSSRuleTemplate : String := "_SELECTOR__RANGE_\x7b_PROPERTY_:_VALUE_px\x7d\n"

/-- The `switch (map[selector].reference)` of `createCSSRules`: picks the
axis unit and multiplies by `range`; any unrecognised or missing
reference falls through to `value = 0`. -/
def axisValue (computedWidth computedHeight vmin vmax : ℚ)
    (reference : Option String) (range : ℕ) : ℚ :=
  match reference with
  | some "vw" => computedWidth * (range : ℚ)
  | some "vh" => computedHeight * (range : ℚ)
  | some "vmin" => vmin * (range : ℚ)
  | some "vmax" => vmax * (range : ℚ)
  | _ => 0

/-- One emitted rule: the body of the inner `for` loop of `createCSSRules`
(value selection followed by the four `.replace` template substitutions). -/
def ruleFor (computedWidth computedHeight vmin vmax : ℚ)
    (selector : String) (entry : RuleMapEntry) (range : ℕ) : String :=
  let value := axisValue computedWidth computedHeight vmin vmax entry.reference range
  jsReplace (jsReplace (jsReplace (jsReplace CSSRuleTemplate
    "_SELECTOR_" selector)
    "_RANGE_" (toString range))
    "_PROPERTY_" entry.property)
    "_VALUE_" (jsNumToString value)

/-- Function `createCSSRules()`: computes the four axis units from the stored
viewport size and accumulates, selector-major and range-minor (range 1
to 100), one rule per `(selector, range)` pair.  `Object.keys(null)`
throws a `TypeError`, modelled by the `Except.error` branch for a null
`CSSMap`. -/
def createCSSRules (viewportSize : ViewportSize) (CSSMap : Option RuleMap) :
    Except String String :=
  let computedHeight := viewportSize.height / 100
  let computedWidth := viewportSize.width / 100
  let vmin := min computedWidth computedHeight
  let vmax := max computedWidth computedHeight
  match CSSMap with
  | none => Except.error "TypeError: Cannot convert undefined or null to object"
  | some map =>
    Except.ok (map.foldl (fun CSSRules se =>
      (List.range' 1 100).foldl (fun acc range =>
        acc ++ ruleFor computedWidth computedHeight vmin vmax se.fst se.snd range)
        CSSRules) "")

/-- The individual rule blocks of a generated stylesheet, in emission
order: one block per `(selector, range)` pair, 100 ranges per selector. -/
def ruleBlocks (viewportSize : ViewportSize) (map : RuleMap) : List String :=
  let computedHeight := viewportSize.height / 100
  let computedWidth := viewportSize.width / 100
  let vmin := min computedWidth computedHeight
  let vmax := max computedWidth computedHeight
  (map.map (fun se =>
    (List.range' 1 100).map
      (ruleFor computedWidth computedHeight vmin vmax se.fst se.snd))).flatten

/-- Resolved options as consumed by the core loop.  `onResize` is not a
field: callback invocations are reified as effects. -/
structure Options where
  stylesheetId : String
  viewportObserverInterval : ℚ
  CSSMap : Option RuleMap
deriving DecidableEq, Repr

/-- Initial stored dimensions: `vunit.viewportSize = {height: 0, width: 0}`. -/
def initialViewportSize : ViewportSize := { height := 0, width := 0 }

/-- Function `viewportHasChanged()`: compares the sampled size against the stored
one component-wise, and unconditionally overwrites the stored state.
Returned: (the boolean result, the new stored `vunit.viewportSize`). -/
def viewportHasChanged (stored currentViewportSize : ViewportSize) :
    Bool × ViewportSize :=
  let differentHeight := decide (currentViewportSize.height ≠ stored.height)
  let differentWidth := decide (currentViewportSize.width ≠ stored.width)
  ((differentHeight || differentWidth), currentViewportSize)

/-- A style element as it sits in the document head: its `id` attribute
and its text content. -/
structure StyleNode where
  id : String
  content : String
deriving DecidableEq, Repr

/-- Lookup `document.getElementById` over the head children: first node with the
given id, if any. -/
def getElementById (nodes : List StyleNode) (i : String) : Option StyleNode :=
  nodes.find? (fun n => decide (n.id = i))

/-- Removal `head.removeChild(legacyStylesheet)`: removes the first node bearing
the given id (the one `getElementById` returned). -/
def removeFirstById : List StyleNode → String → List StyleNode
  | [], _ => []
  | n :: ns, i => if n.id = i then ns else n :: removeFirstById ns i

/-- Function `appendStylesheetOnHead(stylesheet)`: looks up a previous node with
the configured id, removes it if present, then appends the new node. -/
def appendStylesheetOnHead (stylesheetId : String) (head : List StyleNode)
    (stylesheet : StyleNode) : List StyleNode :=
  match getElementById head stylesheetId with
  | some _ => removeFirstById head stylesheetId ++ [stylesheet]
  | none => head ++ [stylesheet]

/-- How many head nodes bear the given id. -/
def countById (head : List StyleNode) (i : String) : ℕ :=
  (head.filter (fun n => decide (n.id = i))).length

/-- Mutable state touched by one poll cycle: the stored viewport size and
the document head. -/
structure VState where
  viewportSize : ViewportSize
  head : List StyleNode
deriving DecidableEq, Repr

/-- Observable side effects of one poll cycle, in order of occurrence. -/
inductive Effect where
  | published (node : StyleNode)
  | resizeCallback (size : ViewportSize)
  | threwError (msg : String)
  | timerArmed (interval : ℚ)
deriving DecidableEq, Repr

/-- Whether an effect is an `onResize` invocation. -/
def Effect.isResizeCallback : Effect → Bool
  | .resizeCallback _ => true
  | _ => false

/-- Function `viewportObserver()`: runs the change check (which always overwrites
the stored viewport), and on a detected change generates the CSS text
from the freshly stored size, publishes it under the configured id, and
invokes `onResize(vunit.viewportSize)` — the already-updated size.  A
null `CSSMap` makes `createCSSRules` throw, so nothing is published and
the callback is not reached. -/
def viewportObserver (opts : Options) (st : VState) (sampled : ViewportSize) :
    VState × List Effect :=
  let chk := viewportHasChanged st.viewportSize sampled
  let st1 : VState := { st with viewportSize := chk.snd }
  if chk.fst then
    match createCSSRules st1.viewportSize opts.CSSMap with
    | Except.error msg => (st1, [Effect.threwError msg])
    | Except.ok CSSRules =>
      let stylesheet : StyleNode := { id := opts.stylesheetId, content := CSSRules }
      let head2 := appendStylesheetOnHead opts.stylesheetId st1.head stylesheet
      ({ st1 with head := head2 },
        [Effect.published stylesheet, Effect.resizeCallback st1.viewportSize])
  else (st1, [])

/-- JS values, as far as the constructor's option handling distinguishes
them: the `||` defaulting only inspects truthiness.  `noopFunction`
stands for the default `() => {}`; `someFunction` for any caller-supplied
function. -/
inductive JSVal where
  | undefined
  | null
  | boolean (b : Bool)
  | nan
  | number (q : ℚ)
  | string (s : String)
  | object (m : RuleMap)
  | noopFunction
  | someFunction (tag : ℕ)
deriving DecidableEq, Repr

/-- JS truthiness: `undefined`, `null`, `false`, `NaN`, `0` and `""` are
falsy; every object and function is truthy. -/
def truthy : JSVal → Bool
  | .undefined => false
  | .null => false
  | .boolean b => b
  | .nan => false
  | .number q => decide (q ≠ 0)
  | .string s => decide (s ≠ "")
  | .object _ => true
  | .noopFunction => true
  | .someFunction _ => true

/-- JS `a || b`. -/
def jsOr (a b : JSVal) : JSVal := if truthy a then a else b

/-- The caller-supplied options object (missing properties read as
`undefined`). -/
structure RawOptions where
  stylesheetId : JSVal
  viewportObserverInterval : JSVal
  CSSMap : JSVal
  onResize : JSVal
deriving DecidableEq, Repr

/-- The `vunit.options = { ... }` block: each option defaults through
`||` when the supplied value is falsy. -/
def resolveOptions (opts : RawOptions) : RawOptions where
  stylesheetId := jsOr opts.stylesheetId (JSVal.string "v-unit-stylesheet")
  viewportObserverInterval := jsOr opts.viewportObserverInterval (JSVal.number 100)
  CSSMap := jsOr opts.CSSMap JSVal.null
  onResize := jsOr opts.onResize JSVal.noopFunction

/-- The constructor body `vUnit(options)` run under `new`.  When
`!window || !document` the body returns early: the caller still receives
the (uninitialized) instance, the head is untouched and no effect occurs.
Otherwise the state is initialized, one `viewportObserver()` cycle runs
synchronously against the first sample, and the repeating timer is armed.
Result: ((instance `options` field, instance `viewportSize` field),
final head, effect trace). -/
def newVUnit (documentAvailable : Bool) (opts : Options)
    (sampled : ViewportSize) (head : List StyleNode) :
    (Option Options × Option ViewportSize) × List StyleNode × List Effect :=
  if documentAvailable then
    let st0 : VState := { viewportSize := initialViewportSize, head := head }
    let r := viewportObserver opts st0 sampled
    ((some opts, some r.fst.viewportSize), r.fst.head,
      r.snd ++ [Effect.timerArmed opts.viewportObserverInterval])
  else
    ((none, none), head, [])

/-- Rule generation as invoked by `viewportObserver()`: `createCSSRules`
reads exactly `vunit.viewportSize` and `vunit.options.CSSMap` from the
shared instance state. -/
def generateFromState (opts : Options) (st : VState) : Except String String :=
  createCSSRules st.viewportSize opts.CSSMap

/-- N successive publishes under one configured id: each detected-change
cycle hands `appendStylesheetOnHead` the freshly generated text. -/
def publishAll (i : String) (head : List StyleNode) (texts : List String) :
    List StyleNode :=
  texts.foldl (fun h css => appendStylesheetOnHead i h { id := i, content := css }) head

end VUnit

namespace VUnit

/-- C2 counterexample: the very first change check does NOT report a
change when the sampled viewport is itself `{0,0}` — both components
compare equal to the zero-initialized stored state, so the check
returns `false`, contradicting "returns true regardless of the sampled
value, including when the sampled viewport is itself {0,0}". -/
theorem firstCheck_zero_sample_reports_false :
    (viewportHasChanged initialViewportSize { height := 0, width := 0 }).fst = false := by
  decide

/-- C2 (amended): on a freshly constructed instance, whose stored
ViewportSize is initialized to `{0,0}`, the first change check returns
true for every sampled viewport other than `{0,0}` itself; sampling
exactly `{0,0}` first reports no change. -/
theorem firstCheck_reports_change (s : ViewportSize)
    (hs : s ≠ initialViewportSize) :
    (viewportHasChanged initialViewportSize s).fst = true := by
  simp only [viewportHasChanged, initialViewportSize, Bool.or_eq_true,
    decide_eq_true_eq]
  by_contra hcon
  push_neg at hcon
  obtain ⟨hh, hw⟩ := hcon
  apply hs
  cases s
  simp_all [initialViewportSize]

/-- Witness for C2's amended theorem at the sample `{768, 1024}`. -/
theorem firstCheck_reports_change_witness :
    (viewportHasChanged initialViewportSize { height := 768, width := 1024 }).fst = true :=
  firstCheck_reports_change { height := 768, width := 1024 } (by decide)

/-- C3: the change check returns true exactly when the sample differs from
the stored ViewportSize in width or height; after every call the stored
value equals the sample; and feeding two different values A ≠ B in
sequence reports true on the transition and false when the same value is
sampled again immediately after. -/
theorem viewportHasChanged_correct (stored sampled A B : ViewportSize)
    (hAB : A ≠ B) :
    ((viewportHasChanged stored sampled).fst = true ↔
      sampled.width ≠ stored.width ∨ sampled.height ≠ stored.height) ∧
    (viewportHasChanged stored sampled).snd = sampled ∧
    (viewportHasChanged A B).fst = true ∧
    (viewportHasChanged (viewportHasChanged A B).snd B).fst = false := by
  refine ⟨?_, rfl, ?_, ?_⟩
  · simp [viewportHasChanged, or_comm]
  · simp only [viewportHasChanged, Bool.or_eq_true, decide_eq_true_eq]
    by_contra hcon
    push_neg at hcon
    obtain ⟨hh, hw⟩ := hcon
    apply hAB
    cases A
    cases B
    simp_all
  · simp [viewportHasChanged]

/-- Witness for C3 at stored `{1,2}`, sample `{3,4}`, transition
`{0,0} ≠ {5,6}`. -/
theorem viewportHasChanged_correct_witness :
    (viewportHasChanged { height := 0, width := 0 } { height := 5, width := 6 }).fst = true :=
  (viewportHasChanged_correct { height := 1, width := 2 } { height := 3, width := 4 }
    { height := 0, width := 0 } { height := 5, width := 6 } (by decide)).2.2.1

/-- C4: with a null `CSSMap`, rule generation fails fast synchronously —
`Object.keys(null)` throws a `TypeError` — and never produces (empty or
other) output; the error surfaces to the caller of the generation step
(`viewportObserver`), whose cycle ends with the thrown error and
publishes nothing. -/
theorem nullMap_failsFast (opts : Options) (st : VState)
    (vs sampled : ViewportSize) (hmap : opts.CSSMap = none)
    (hch : (viewportHasChanged st.viewportSize sampled).fst = true) :
    createCSSRules vs none
      = Except.error "TypeError: Cannot convert undefined or null to object" ∧
    (∀ s, createCSSRules vs none ≠ Except.ok s) ∧
    (viewportObserver opts st sampled).snd
      = [Effect.threwError "TypeError: Cannot convert undefined or null to object"] := by
  refine ⟨rfl, by simp [createCSSRules], ?_⟩
  simp [viewportObserver, hch, hmap, createCSSRules]

/-- Witness for C4: a fresh instance with null map and a nonzero first
sample throws on its first cycle. -/
theorem nullMap_failsFast_witness :
    (viewportObserver { stylesheetId := "v-unit-stylesheet",
                        viewportObserverInterval := 100, CSSMap := none }
      { viewportSize := { height := 0, width := 0 }, head := [] }
      { height := 300, width := 400 }).snd
      = [Effect.threwError "TypeError: Cannot convert undefined or null to object"] :=
  (nullMap_failsFast { stylesheetId := "v-unit-stylesheet",
                       viewportObserverInterval := 100, CSSMap := none }
    { viewportSize := { height := 0, width := 0 }, head := [] }
    { height := 100, width := 100 } { height := 300, width := 400 }
    rfl (by decide)).2.2

/-- C5 counterexample: with no document-like host available, the
constructor body returns early and the run produces no effect at all —
the head is untouched, nothing is thrown, and the caller (under `new`)
receives an ordinary, uninitialized instance: there is no returned
failure indication, contradicting "the caller receives a returned
failure indication at start". -/
theorem noDocument_no_failure_indication :
    newVUnit false
      { stylesheetId := "v-unit-stylesheet", viewportObserverInterval := 100,
                        CSSMap := none }
      { height := 200, width := 100 } []
      = ((none, none), [], []) := by
  rfl

/-- C5 (amended): if no document-like host environment is available at
start, the system declines to start — no stylesheet is ever published,
the onResize callback never fires, the document is left untouched — but
the constructor returns silently (a bare early `return`): under `new`
the caller receives an uninitialized instance with no failure
indication, and must detect the condition by inspecting the instance. -/
theorem noDocument_silent_noop (opts : Options) (sampled : ViewportSize)
    (head : List StyleNode) :
    newVUnit false opts sampled head = ((none, none), head, []) := by
  simp [newVUnit]

/-- C8: rule generation is a pure deterministic function of the stored
viewport size and the configured rule map alone — two instances agreeing
on those two inputs generate byte-identical text, whatever their other
state (stylesheet id, interval, document head) is; in particular calling
it twice on one instance yields identical text. -/
theorem generation_deterministic (o1 o2 : Options) (s1 s2 : VState)
    (hv : s1.viewportSize = s2.viewportSize) (hm : o1.CSSMap = o2.CSSMap) :
    generateFromState o1 s1 = generateFromState o2 s2 := by
  simp [generateFromState, hv, hm]

/-- Witness for C8: two instances differing in id, interval and head but
agreeing on viewport and map generate the same text. -/
theorem generation_deterministic_witness :
    generateFromState
      { stylesheetId := "a", viewportObserverInterval := 100,
                        CSSMap := some [(".vw", { property := "width", reference := some "vw" })] }
      { viewportSize := { height := 5, width := 6 }, head := [] }
    = generateFromState
      { stylesheetId := "b", viewportObserverInterval := 50,
                        CSSMap := some [(".vw", { property := "width", reference := some "vw" })] }
      { viewportSize := { height := 5, width := 6 },
                        head := [{ id := "x", content := "y" }] } :=
  generation_deterministic _ _ _ _ rfl rfl

/-- C10: the `||` defaulting of the options block replaces every falsy
supplied value — not only absent ones — with the default: interval `0`
yields `100`, stylesheetId `""` yields `"v-unit-stylesheet"`, and any
falsy `CSSMap` or `onResize` yields `null` and the no-op callback. -/
theorem resolveOptions_falsy_defaults (o o2 : RawOptions)
    (hs : truthy o.stylesheetId = false)
    (hi : truthy o.viewportObserverInterval = false)
    (hm : truthy o.CSSMap = false)
    (hr : truthy o.onResize = false) :
    (resolveOptions o).stylesheetId = JSVal.string "v-unit-stylesheet" ∧
    (resolveOptions o).viewportObserverInterval = JSVal.number 100 ∧
    (resolveOptions o).CSSMap = JSVal.null ∧
    (resolveOptions o).onResize = JSVal.noopFunction ∧
    (resolveOptions
        { o2 with viewportObserverInterval := JSVal.number 0 }).viewportObserverInterval
      = JSVal.number 100 ∧
    (resolveOptions { o2 with stylesheetId := JSVal.string "" }).stylesheetId
      = JSVal.string "v-unit-stylesheet" := by
  refine ⟨?_, ?_, ?_, ?_, ?_, ?_⟩
  · simp [resolveOptions, jsOr, hs]
  · simp [resolveOptions, jsOr, hi]
  · simp [resolveOptions, jsOr, hm]
  · simp [resolveOptions, jsOr, hr]
  · simp [resolveOptions, jsOr, truthy]
  · simp [resolveOptions, jsOr, truthy]

/-- Witness for C10 at the falsy values `""`, `0`, `false`, `NaN`. -/
theorem resolveOptions_falsy_defaults_witness :
    (resolveOptions
      { stylesheetId := JSVal.string "", viewportObserverInterval := JSVal.number 0,
        CSSMap := JSVal.boolean false, onResize := JSVal.nan }).CSSMap = JSVal.null :=
  (resolveOptions_falsy_defaults
    { stylesheetId := JSVal.string "", viewportObserverInterval := JSVal.number 0,
      CSSMap := JSVal.boolean false, onResize := JSVal.nan }
    { stylesheetId := JSVal.undefined, viewportObserverInterval := JSVal.undefined,
      CSSMap := JSVal.undefined, onResize := JSVal.undefined }
    (by decide) (by decide) (by decide) (by decide)).2.2.1

end VUnit

namespace VUnit

theorem join_cons_str (s : String) (ss : List String) :
    String.join (s :: ss) = s ++ String.join ss := by
  apply String.ext
  simp [String.data_join]

theorem foldl_append_eq_join {α : Type} (f : α → String) (l : List α) (a : String) :
    l.foldl (fun acc x => acc ++ f x) a = a ++ String.join (l.map f) := by
  induction l generalizing a with
  | nil => simp [String.join]
  | cons x xs ih =>
    rw [List.foldl_cons, ih, List.map_cons, join_cons_str, String.append_assoc]

theorem join_append_str (a b : List String) :
    String.join (a ++ b) = String.join a ++ String.join b := by
  apply String.ext
  simp [String.data_join]

theorem outer_foldl_eq_join (g : String × RuleMapEntry → ℕ → String)
    (map : RuleMap) (a : String) :
    map.foldl (fun CSSRules se => (List.range' 1 100).foldl
        (fun acc range => acc ++ g se range) CSSRules) a
      = a ++ String.join ((map.map
          (fun se => (List.range' 1 100).map (g se))).flatten) := by
  induction map generalizing a with
  | nil => simp [String.join]
  | cons se rest ih =>
    rw [List.foldl_cons, ih, foldl_append_eq_join, List.map_cons,
      List.flatten_cons, join_append_str, String.append_assoc]

theorem ruleBlocks_length (vs : ViewportSize) (map : RuleMap) :
    (ruleBlocks vs map).length = 100 * map.length := by
  induction map with
  | nil => simp [ruleBlocks]
  | cons se rest ih =>
    simp only [ruleBlocks, List.map_cons, List.flatten_cons, List.length_append,
      List.length_map, List.length_range', List.length_cons] at ih ⊢
    omega

/-- C7: for every viewport size and every rule map with N selectors, the
generated CSS text is exactly the concatenation of `100 * N` rule blocks,
one per (selector, range) pair with range from 1 to 100. -/
theorem generated_text_rule_count (vs : ViewportSize) (map : RuleMap) :
    createCSSRules vs (some map)
      = Except.ok (String.join (ruleBlocks vs map)) ∧
    (ruleBlocks vs map).length = 100 * map.length := by
  refine ⟨?_, ruleBlocks_length vs map⟩
  simp only [createCSSRules, ruleBlocks]
  rw [outer_foldl_eq_join, String.empty_append]

end VUnit

namespace VUnit

theorem countById_cons (n : StyleNode) (ns : List StyleNode) (i : String) :
    countById (n :: ns) i = (if n.id = i then 1 else 0) + countById ns i := by
  by_cases h : n.id = i <;> simp [countById, List.filter_cons, h] ; omega

theorem countById_removeFirstById (head : List StyleNode) (i : String) :
    countById (removeFirstById head i) i = countById head i - 1 := by
  induction head with
  | nil => simp [removeFirstById, countById]
  | cons n ns ih =>
    by_cases h : n.id = i
    · simp [removeFirstById, h, countById_cons]
    · simp [removeFirstById, h, countById_cons, ih]

theorem getElementById_none_filter (head : List StyleNode) (i : String)
    (h : getElementById head i = none) :
    head.filter (fun n => decide (n.id = i)) = [] := by
  rw [List.filter_eq_nil_iff]
  intro a ha
  have := List.find?_eq_none.mp h a ha
  simpa using this

theorem getElementById_some_count (head : List StyleNode) (i : String)
    (n : StyleNode) (h : getElementById head i = some n) :
    1 ≤ countById head i := by
  have hmem : n ∈ head := List.mem_of_find?_eq_some h
  have hp := List.find?_some h
  have hmf : n ∈ head.filter (fun x => decide (x.id = i)) :=
    List.mem_filter.mpr ⟨hmem, hp⟩
  have := List.ne_nil_of_mem hmf
  have hpos := List.length_pos.mpr this
  exact hpos

theorem filter_appendStylesheetOnHead (i css : String) (head : List StyleNode)
    (h : countById head i ≤ 1) :
    (appendStylesheetOnHead i head { id := i, content := css }).filter
      (fun n => decide (n.id = i)) = [{ id := i, content := css }] := by
  unfold appendStylesheetOnHead
  cases hfind : getElementById head i with
  | none =>
    simp [List.filter_append, getElementById_none_filter head i hfind]
  | some n =>
    have h1 : countById head i = 1 :=
      Nat.le_antisymm h (getElementById_some_count head i n hfind)
    have h0 : countById (removeFirstById head i) i = 0 := by
      rw [countById_removeFirstById, h1]
    have hfil : (removeFirstById head i).filter (fun n => decide (n.id = i)) = [] :=
      List.length_eq_zero.mp h0
    simp [List.filter_append, hfil]

theorem publishAll_filter (i css : String) (texts : List String) :
    ∀ head : List StyleNode, countById head i ≤ 1 →
      (publishAll i head (texts ++ [css])).filter (fun n => decide (n.id = i))
        = [{ id := i, content := css }] := by
  induction texts with
  | nil =>
    intro head h
    simpa [publishAll] using filter_appendStylesheetOnHead i css head h
  | cons t ts ih =>
    intro head h
    have hstep : countById
        (appendStylesheetOnHead i head { id := i, content := t }) i ≤ 1 := by
      have := filter_appendStylesheetOnHead i t head h
      simp [countById, this]
    simpa [publishAll, List.foldl_cons] using
      ih (appendStylesheetOnHead i head { id := i, content := t }) hstep

/-- C6: if the document starts with at most one style node bearing the
configured identifier, then after a publish exactly one such node exists
and its content is the freshly generated text (the publish removes any
prior node with that identifier before appending the new one), and after
any number of successive publish cycles the unique such node holds the
most recently generated text. -/
theorem publish_single_node (i css : String) (head : List StyleNode)
    (texts : List String) (h : countById head i ≤ 1) :
    countById (appendStylesheetOnHead i head { id := i, content := css }) i = 1 ∧
    (appendStylesheetOnHead i head { id := i, content := css }).filter
      (fun n => decide (n.id = i)) = [{ id := i, content := css }] ∧
    (publishAll i head (texts ++ [css])).filter (fun n => decide (n.id = i))
      = [{ id := i, content := css }] := by
  refine ⟨?_, filter_appendStylesheetOnHead i css head h,
    publishAll_filter i css texts head h⟩
  simp [countById, filter_appendStylesheetOnHead i css head h]

/-- Witness for C6: three successive publishes over a head that already
holds one stale node under the configured id (plus an unrelated node)
leave exactly the last text in place. -/
theorem publish_single_node_witness :
    countById (appendStylesheetOnHead "v-unit-stylesheet"
      [{ id := "other", content := "x" },
       { id := "v-unit-stylesheet", content := "old" }]
      { id := "v-unit-stylesheet", content := "c" }) "v-unit-stylesheet" = 1 :=
  (publish_single_node "v-unit-stylesheet" "c"
    [{ id := "other", content := "x" },
     { id := "v-unit-stylesheet", content := "old" }]
    ["a", "b"] (by decide)).1

/-- The change check never alters the sample it stores. -/
theorem viewportHasChanged_snd (a b : ViewportSize) :
    (viewportHasChanged a b).snd = b := rfl

/-- C9: in every check-and-publish cycle (with a configured rule map),
the onResize callback fires exactly once when a change is detected,
receives exactly the sampled ViewportSize that triggered the change, and
never fires in a cycle where no change is detected. -/
theorem onResize_exactly_once (opts : Options) (st : VState)
    (sampled : ViewportSize) (m : RuleMap) (hmap : opts.CSSMap = some m) :
    ((viewportObserver opts st sampled).snd.filter Effect.isResizeCallback).length
      = (if (viewportHasChanged st.viewportSize sampled).fst then 1 else 0) ∧
    (∀ v, Effect.resizeCallback v ∈ (viewportObserver opts st sampled).snd →
      v = sampled) ∧
    ((viewportHasChanged st.viewportSize sampled).fst = false →
      (viewportObserver opts st sampled).snd = []) := by
  cases hc : (viewportHasChanged st.viewportSize sampled).fst with
  | false =>
    refine ⟨?_, ?_, ?_⟩ <;>
      simp [viewportObserver, hc]
  | true =>
    refine ⟨?_, ?_, ?_⟩ <;>
      simp [viewportObserver, hc, hmap, createCSSRules, viewportHasChanged_snd,
        Effect.isResizeCallback]

/-- Witness for C9: a fresh instance's first cycle with a nonzero sample
fires the callback exactly once. -/
theorem onResize_exactly_once_witness :
    ((viewportObserver { stylesheetId := "v-unit-stylesheet",
                         viewportObserverInterval := 100,
                         CSSMap := some [(".vw", { property := "width",
                                                   reference := some "vw" })] }
        { viewportSize := { height := 0, width := 0 }, head := [] }
        { height := 10, width := 20 }).snd.filter Effect.isResizeCallback).length
      = (if (viewportHasChanged { height := 0, width := 0 }
              { height := 10, width := 20 }).fst then 1 else 0) :=
  (onResize_exactly_once
    { stylesheetId := "v-unit-stylesheet", viewportObserverInterval := 100,
      CSSMap := some [(".vw", { property := "width", reference := some "vw" })] }
    { viewportSize := { height := 0, width := 0 }, head := [] }
    { height := 10, width := 20 }
    [(".vw", { property := "width", reference := some "vw" })] rfl).1

end VUnit

namespace VUnit

/-- C1 counterexample: for viewport `{width:1000, height:500}` (axis units
10 and 5) and map `{".vw50": {property:"width", reference:"vw"}}`, the
rule emitted at range 50 is `.vw5050{width:500px}` — the range is
appended to the selector key — and NOT `.vw50{width:500px}` as the claim
states. -/
theorem vw50_scenario_counterexample :
    ruleBlocks { height := 500, width := 1000 }
        [(".vw50", { property := "width", reference := some "vw" })]
      = (List.range' 1 100).map
          (ruleFor 10 5 5 10 ".vw50" { property := "width", reference := some "vw" }) ∧
    ruleFor 10 5 5 10 ".vw50" { property := "width", reference := some "vw" } 50
      = ".vw5050\x7bwidth:500px\x7d\n" ∧
    ruleFor 10 5 5 10 ".vw50" { property := "width", reference := some "vw" } 50
      ≠ ".vw50\x7bwidth:500px\x7d\n" := by
  have hv : axisValue 10 5 5 10 (some "vw") 50 = 500 := by norm_num [axisValue]
  refine ⟨?_, ?_, ?_⟩
  · simp only [ruleBlocks, List.map_cons, List.map_nil, List.flatten_cons,
      List.flatten_nil, List.append_nil]
    norm_num [min_def, max_def]
  · simp only [ruleFor, hv]
    decide
  · simp only [ruleFor, hv]
    decide

/-- C1 (amended): the Rule Generator computes each rule's value as
`axisUnit * range`, where the axis unit is `width/100` for reference
`vw`, `height/100` for `vh`, the minimum of the two for `vmin`, the
maximum for `vmax`, and 0 for any other or missing reference.  For
viewport `{width:1000, height:500}`, the rule `.vw50{width:500px}` is
emitted at range 50 for selector key `".vw"` (under key `".vw50"` the
range-50 rule is `.vw5050{width:500px}`, the range being appended to the
key).  For viewport `{width:800, height:400}` a vmin rule at range 10
yields 40px and a vmax rule at range 10 yields 80px. -/
theorem rule_value_axis_correct (vs : ViewportSize) (range : ℕ)
    (ref : Option String)
    (href : ref ∉ [some "vw", some "vh", some "vmin", some "vmax"]) :
    axisValue (vs.width / 100) (vs.height / 100)
        (min (vs.width / 100) (vs.height / 100))
        (max (vs.width / 100) (vs.height / 100)) (some "vw") range
      = vs.width / 100 * range ∧
    axisValue (vs.width / 100) (vs.height / 100)
        (min (vs.width / 100) (vs.height / 100))
        (max (vs.width / 100) (vs.height / 100)) (some "vh") range
      = vs.height / 100 * range ∧
    axisValue (vs.width / 100) (vs.height / 100)
        (min (vs.width / 100) (vs.height / 100))
        (max (vs.width / 100) (vs.height / 100)) (some "vmin") range
      = min (vs.width / 100) (vs.height / 100) * range ∧
    axisValue (vs.width / 100) (vs.height / 100)
        (min (vs.width / 100) (vs.height / 100))
        (max (vs.width / 100) (vs.height / 100)) (some "vmax") range
      = max (vs.width / 100) (vs.height / 100) * range ∧
    axisValue (vs.width / 100) (vs.height / 100)
        (min (vs.width / 100) (vs.height / 100))
        (max (vs.width / 100) (vs.height / 100)) ref range = 0 ∧
    ruleFor 10 5 5 10 ".vw" { property := "width", reference := some "vw" } 50
      = ".vw50\x7bwidth:500px\x7d\n" ∧
    axisValue 8 4 4 8 (some "vmin") 10 = 40 ∧
    axisValue 8 4 4 8 (some "vmax") 10 = 80 := by
  have hv : axisValue 10 5 5 10 (some "vw") 50 = 500 := by norm_num [axisValue]
  refine ⟨rfl, rfl, rfl, rfl, ?_, ?_, ?_, ?_⟩
  · unfold axisValue
    split <;> simp_all
  · simp only [ruleFor, hv]
    decide
  · norm_num [axisValue]
  · norm_num [axisValue]

/-- Witness for C1's amended theorem at viewport `{1000,500}`, range 50,
unrecognised reference `"foo"`. -/
theorem rule_value_axis_correct_witness :
    axisValue ((1000 : ℚ) / 100) ((500 : ℚ) / 100)
        (min ((1000 : ℚ) / 100) ((500 : ℚ) / 100))
        (max ((1000 : ℚ) / 100) ((500 : ℚ) / 100)) (some "foo") 50 = 0 :=
  (rule_value_axis_correct { height := 500, width := 1000 } 50 (some "foo")
    (by decide)).2.2.2.2.1

end VUnit
